import Mathlib

/-!
Shallow embedding of the sheet registry / show-hide coordinator of
react-native-actions-sheet-replacement (src/SheetManager.tsx) and of the
ActionSheet presentation unit (src/ActionSheet.tsx), together with proofs
of the behavioural properties stated in the specification.

Modelling conventions:
* JavaScript values that flow through payloads and promise results are the
  inductive `JSValue`; `JSValue.undef` is JS undefined.
* Promises are identified by a fresh natural number allocated per `show`
  call; the table `settled` records the first settlement of each promise
  (later resolve/reject calls on an already settled promise are no-ops in
  JS, mirrored by `settle`).
* React refs: whether a ref's `.current` is non-null at the instant an
  operation reads it is passed as an explicit Bool parameter, because the
  ref cell is mutated externally by React mount/unmount.
* The two `setTimeout` checks inside `openSheet` read the `sheets` binding
  captured by the `useCallback` closure, i.e. the directory as it was
  BEFORE the `setSheets` update performed by the same `openSheet` call
  (stale closure). `openSheet` below therefore passes the pre-update
  directory as the snapshot consulted by the deferred phase.
* `ActionSheet.close` and `ActionSheet.open` cannot throw, so the
  `try/catch` in `closeSheet` never takes its catch branch and the
  embedding of `closeSheet` has no rejection path.
-/

namespace RNAS

/-- JS values carried as payloads and results. `data n` stands for an
arbitrary serializable object distinct from the empty object literal. -/
inductive JSValue where
  | undef
  | jsNull
  | bool (b : Bool)
  | num (n : Int)
  | str (s : String)
  | emptyObj
  | data (n : Nat)
  deriving DecidableEq, Repr

/-- JS truthiness of a `JSValue`. -/
def truthy : JSValue → Bool
  | .undef => false
  | .jsNull => false
  | .bool b => b
  | .num n => n != 0
  | .str s => s != ""
  | .emptyObj => true
  | .data _ => true

/-- JS `a || b`. -/
def jsOr (a b : JSValue) : JSValue := if truthy a then a else b

/-- Lookup in an association list (JS object used as a string-keyed map). -/
def alookup {α β : Type} [DecidableEq α] : List (α × β) → α → Option β
  | [], _ => none
  | (k', v) :: t, k => if k' = k then some v else alookup t k

/-- JS object property assignment: replace the entry for the key if
present, otherwise append a new entry. -/
def aset {α β : Type} [DecidableEq α] : List (α × β) → α → β → List (α × β)
  | [], k, v => [(k, v)]
  | (k', v') :: t, k, v => if k' = k then (k, v) :: t else (k', v') :: aset t k v

/-- JS `delete obj[k]`. -/
def aremove {α β : Type} [DecidableEq α] : List (α × β) → α → List (α × β)
  | [], _ => []
  | (k', v') :: t, k => if k' = k then aremove t k else (k', v') :: aremove t k

/-- The settlement of a promise. The coordinator rejects with strings only
(`reject(errorMsg)` and the two template literals). -/
inductive Settlement where
  | resolved (v : JSValue)
  | rejected (msg : String)
  deriving DecidableEq, Repr

/-- Record a settlement for promise `pid`; a promise settles at most once,
so an existing settlement wins. -/
def settle (tbl : List (Nat × Settlement)) (pid : Nat) (o : Settlement) :
    List (Nat × Settlement) :=
  match alookup tbl pid with
  | some _ => tbl
  | none => (pid, o) :: tbl

/-- One entry of the Instance Directory (interface SheetInstance).
`ref` is the identity of the React ref cell attached to the entry. -/
structure SheetInstance where
  id : String
  ref : Nat
  props : JSValue
  isOpen : Bool
  deriving DecidableEq, Repr

/-- Whole coordinator state: module-level registry, the provider's
directory and pending-promise map, the promise settlement table, fresh-id
counters, and whether the provider is mounted (the global
contextSheetOpener / contextSheetCloser are non-null). -/
structure ManagerState where
  registered : List String
  sheets : List (String × SheetInstance)
  sheetPromises : List (String × Nat)
  settled : List (Nat × Settlement)
  nextPromiseId : Nat
  nextRefId : Nat
  providerMounted : Bool
  deriving DecidableEq, Repr

/-- Rejection message of openSheet for an unknown id. -/
def notRegisteredMsg (id : String) : String :=
  "Sheet with id \"" ++ id ++ "\" is not registered."

/-- Rejection message of openSheet when the ref never became available. -/
def refUnavailableMsg (id : String) : String :=
  "Failed to open sheet \"" ++ id ++ "\". Ref is not available."

/-- Rejection message of SheetManager.show with no mounted provider. -/
def providerNotInitMsg : String := "SheetProvider not initialized"

/-- SheetManager.register: store the component under the id (membership
only; the component itself is irrelevant to the coordinator). -/
def register (st : ManagerState) (id : String) : ManagerState :=
  { st with registered :=
      if id ∈ st.registered then st.registered else id :: st.registered }

/-- Synchronous part of openSheet (the Promise executor body before the
setTimeout): allocate the promise, reject immediately when the id is in
neither the directory nor the registry, otherwise store the resolve/reject
pair under the id and upsert the directory entry with the given props and
isOpen = true (creating a placeholder ref when only registered).
Returns (state, promise id, proceeded); proceeded = false means the
executor returned after the immediate rejection. -/
def openSheetSync (st : ManagerState) (id : String) (props : JSValue) :
    ManagerState × Nat × Bool :=
  let pid := st.nextPromiseId
  let st0 := { st with nextPromiseId := pid + 1 }
  if (alookup st0.sheets id) = none ∧ id ∉ st0.registered then
    ({ st0 with settled := settle st0.settled pid (.rejected (notRegisteredMsg id)) },
      pid, false)
  else
    let st1 := { st0 with sheetPromises := aset st0.sheetPromises id pid }
    match alookup st1.sheets id with
    | some s =>
        let updatedSheet : SheetInstance :=
          { id := id, ref := s.ref, props := jsOr props .emptyObj, isOpen := true }
        ({ st1 with sheets := aset st1.sheets id updatedSheet }, pid, true)
    | none =>
        if id ∈ st1.registered then
          let newSheet : SheetInstance :=
            { id := id, ref := st1.nextRefId, props := jsOr props .emptyObj,
              isOpen := true }
          ({ st1 with
              sheets := aset st1.sheets id newSheet
              nextRefId := st1.nextRefId + 1 }, pid, true)
        else (st1, pid, true)

/-- Deferred part of openSheet (the nested setTimeout callbacks).
`snapshot` is the directory captured by the stale closure; `avail1` and
`avail2` say whether the snapshot entry's ref had a non-null `.current`
at the first check and at the retry. Returns the state and whether
`ref.current.open()` was invoked. When the entry's ref is unavailable at
both checks (or the snapshot has no entry at all, in which case the
optional chain yields undefined twice), the promise is rejected; the
pending-promise entry is NOT deleted on this path. -/
def openSheetDeferred (st : ManagerState) (snapshot : List (String × SheetInstance))
    (id : String) (pid : Nat) (avail1 avail2 : Bool) : ManagerState × Bool :=
  match alookup snapshot id with
  | some _ =>
      if avail1 then (st, true)
      else if avail2 then (st, true)
      else ({ st with settled := settle st.settled pid (.rejected (refUnavailableMsg id)) },
        false)
  | none =>
      ({ st with settled := settle st.settled pid (.rejected (refUnavailableMsg id)) },
        false)

/-- openSheet: synchronous phase followed by the deferred phase (which the
executor schedules only when it did not return early). The deferred phase
consults the pre-update directory because of the stale closure. -/
def openSheet (st : ManagerState) (id : String) (props : JSValue)
    (avail1 avail2 : Bool) : ManagerState × Nat × Bool :=
  let snapshot := st.sheets
  let r := openSheetSync st id props
  if r.2.2 then
    let d := openSheetDeferred r.1 snapshot id r.2.1 avail1 avail2
    (d.1, r.2.1, d.2)
  else (r.1, r.2.1, false)

/-- closeSheet: no-op when the id has no directory entry; otherwise invoke
`ref.current.close()` when the ref is available (`curAvail`), mark the
entry isOpen = false, and resolve-and-delete the pending promise if one is
stored. `ActionSheet.close` never throws, so the catch branch of the
source (which would reject the pending promise) is unreachable.
Returns the state and whether close() was invoked on the handle. -/
def closeSheet (st : ManagerState) (id : String) (result : JSValue)
    (curAvail : Bool) : ManagerState × Bool :=
  match alookup st.sheets id with
  | none => (st, false)
  | some s =>
      let closedSheet : SheetInstance :=
        { id := id, ref := s.ref, props := s.props, isOpen := false }
      let sheets' := aset st.sheets id closedSheet
      match alookup st.sheetPromises id with
      | some pid =>
          ({ st with
              sheets := sheets'
              settled := settle st.settled pid (.resolved result)
              sheetPromises := aremove st.sheetPromises id }, curAvail)
      | none => ({ st with sheets := sheets' }, curAvail)

/-- SheetManager.show: reject a fresh promise when the provider is not
mounted, otherwise delegate to the provider's openSheet. -/
def managerShow (st : ManagerState) (id : String) (props : JSValue)
    (avail1 avail2 : Bool) : ManagerState × Nat × Bool :=
  if st.providerMounted then openSheet st id props avail1 avail2
  else
    ({ st with
        nextPromiseId := st.nextPromiseId + 1
        settled := settle st.settled st.nextPromiseId (.rejected providerNotInitMsg) },
      st.nextPromiseId, false)

/-- SheetManager.hide: silent return when the provider is not mounted,
otherwise delegate to the provider's closeSheet. -/
def managerHide (st : ManagerState) (id : String) (result : JSValue)
    (curAvail : Bool) : ManagerState × Bool :=
  if st.providerMounted then closeSheet st id result curAvail else (st, false)

/-- Apply a sequence of SheetManager.hide calls (id, result, ref
availability at that call). -/
def applyHides (st : ManagerState) : List (String × JSValue × Bool) → ManagerState
  | [] => st
  | (id, r, avail) :: t => applyHides (managerHide st id r avail).1 t

/-! ### The ActionSheet presentation unit -/

/-- Visible state of one mounted ActionSheet: the two useState booleans and
the two Animated values (exact rationals; the animations' resting values). -/
structure UnitState where
  isVisible : Bool
  isClosing : Bool
  translateY : ℚ
  backdropOpacity : ℚ
  deriving DecidableEq, Repr

/-- Initial unit state: not visible, translateY at SCREEN_HEIGHT,
backdrop transparent. -/
def initialUnit (screenHeight : ℚ) : UnitState :=
  { isVisible := false
    isClosing := false
    translateY := screenHeight
    backdropOpacity := 0 }

/-- The open() imperative call: no-op when already visible or currently
closing; otherwise set isVisible and start the open animation. The Bool
records whether the animation (whose completion fires onOpen) started. -/
def openCall (u : UnitState) : UnitState × Bool :=
  if u.isVisible || u.isClosing then (u, false)
  else ({ u with isVisible := true }, true)

/-- Completion of the open animation: translateY 0, backdrop 1 (onOpen
fires here). -/
def openFinish (u : UnitState) : UnitState :=
  { u with translateY := 0, backdropOpacity := 1 }

/-- The close() imperative call: no-op when not visible or already
closing; otherwise enter the closing state and start the close animation.
The Bool records whether the animation (whose completion fires onClose)
started. -/
def closeCall (u : UnitState) : UnitState × Bool :=
  if !u.isVisible || u.isClosing then (u, false)
  else ({ u with isClosing := true }, true)

/-- Completion of the close animation: leave the closing state, hide, and
reset the animated values (onClose fires here). -/
def closeFinish (screenHeight : ℚ) (u : UnitState) : UnitState :=
  { u with
    isVisible := false
    isClosing := false
    translateY := screenHeight
    backdropOpacity := 0 }

/-- The imperative isOpen() query. -/
def UnitState.isOpen (u : UnitState) : Bool := u.isVisible && !u.isClosing

/-- The scratch state used by concrete witnesses below: one registered and
mounted sheet s1 whose ref cell is ref 0, nothing pending. -/
def inst1 : SheetInstance :=
  { id := "s1", ref := 0, props := .emptyObj, isOpen := false }

/-- Witness coordinator state: provider mounted, sheet s1 registered and
its wrapper mounted (directory entry present), no pending promises. -/
def st0 : ManagerState :=
  { registered := ["s1"]
    sheets := [("s1", inst1)]
    sheetPromises := []
    settled := []
    nextPromiseId := 0
    nextRefId := 10
    providerMounted := true }

/-- Witness coordinator state with the provider not mounted. -/
def stNoProvider : ManagerState := { st0 with providerMounted := false }

/-- Witness unit state: fully open sheet dragged down to 200. -/
def uOpenDragged : UnitState :=
  { isVisible := true, isClosing := false, translateY := 200, backdropOpacity := 1 }

/-- Witness unit state: fully open sheet at rest. -/
def uOpen : UnitState :=
  { isVisible := true, isClosing := false, translateY := 0, backdropOpacity := 1 }

/-- onPanResponderMove: follow the finger while dragging downwards. -/
def onPanResponderMove (u : UnitState) (dy : ℚ) : UnitState :=
  if dy > 0 then { u with translateY := dy } else u

/-- onPanResponderRelease: close when dragged past 20% of the screen
height or released faster than 0.5, otherwise spring back to the open
position (modelled at the spring's resting value translateY = 0). The
Bool records whether the close() branch was taken. -/
def onPanResponderRelease (screenHeight : ℚ) (u : UnitState) (dy vy : ℚ) :
    UnitState × Bool :=
  if dy > screenHeight * (2/10) ∨ vy > 5/10 then ((closeCall u).1, true)
  else ({ u with translateY := 0 }, false)

/-- snapToIndex: index 0 springs to the open position, anything else
closes. -/
def snapToIndex (u : UnitState) (index : Int) : UnitState :=
  if index = 0 then { u with translateY := 0 } else (closeCall u).1

/-! ### Association-list and settlement lemmas -/

theorem alookup_aset_self {α β : Type} [DecidableEq α] (l : List (α × β)) (k : α) (v : β) :
    alookup (aset l k v) k = some v := by
  induction l with
  | nil => simp [aset, alookup]
  | cons hd t ih =>
      obtain ⟨k', v'⟩ := hd
      by_cases h : k' = k
      · simp [aset, alookup, h]
      · simp [aset, alookup, h, ih]

theorem alookup_aset_ne {α β : Type} [DecidableEq α] (l : List (α × β)) (k k' : α) (v : β)
    (h : k' ≠ k) : alookup (aset l k v) k' = alookup l k' := by
  induction l with
  | nil => simp [aset, alookup, Ne.symm h]
  | cons hd t ih =>
      obtain ⟨a, b⟩ := hd
      by_cases ha : a = k
      · subst ha
        simp [aset, alookup, Ne.symm h, h]
      · by_cases hb : a = k'
        · simp [aset, alookup, ha, hb, h]
        · simp [aset, alookup, ha, hb, ih]

theorem alookup_aremove_self {α β : Type} [DecidableEq α] (l : List (α × β)) (k : α) :
    alookup (aremove l k) k = none := by
  induction l with
  | nil => simp [aremove, alookup]
  | cons hd t ih =>
      obtain ⟨a, b⟩ := hd
      by_cases ha : a = k
      · simp [aremove, ha, ih]
      · simp [aremove, alookup, ha, ih]

theorem alookup_aremove_ne {α β : Type} [DecidableEq α] (l : List (α × β)) (k k' : α)
    (h : k' ≠ k) : alookup (aremove l k) k' = alookup l k' := by
  induction l with
  | nil => simp [aremove]
  | cons hd t ih =>
      obtain ⟨a, b⟩ := hd
      by_cases ha : a = k
      · subst ha
        simp [aremove, alookup, Ne.symm h, ih]
      · simp [aremove, alookup, ha, ih]

theorem aset_aset {α β : Type} [DecidableEq α] (l : List (α × β)) (k : α) (v v' : β) :
    aset (aset l k v) k v' = aset l k v' := by
  induction l with
  | nil => simp [aset]
  | cons hd t ih =>
      obtain ⟨a, b⟩ := hd
      by_cases ha : a = k
      · simp [aset, ha]
      · simp [aset, ha, ih]

theorem alookup_aset_cases {α β : Type} [DecidableEq α] (l : List (α × β)) (k k' : α)
    (v w : β) (h : alookup (aset l k v) k' = some w) :
    (k' = k ∧ w = v) ∨ alookup l k' = some w := by
  by_cases hk : k' = k
  · subst hk
    rw [alookup_aset_self] at h
    exact Or.inl ⟨rfl, (Option.some_inj.mp h).symm⟩
  · rw [alookup_aset_ne _ _ _ _ hk] at h
    exact Or.inr h

theorem alookup_aremove_cases {α β : Type} [DecidableEq α] (l : List (α × β)) (k k' : α)
    (w : β) (h : alookup (aremove l k) k' = some w) : alookup l k' = some w := by
  by_cases hk : k' = k
  · subst hk
    rw [alookup_aremove_self] at h
    cases h
  · rw [alookup_aremove_ne _ _ _ hk] at h
    exact h

theorem mem_fst_aset {α β : Type} [DecidableEq α] (l : List (α × β)) (k a : α) (v : β) :
    a ∈ (aset l k v).map Prod.fst ↔ a = k ∨ a ∈ l.map Prod.fst := by
  induction l with
  | nil => simp [aset]
  | cons hd t ih =>
      obtain ⟨b, c⟩ := hd
      by_cases hb : b = k
      · subst hb
        simp [aset]
      · simp [aset, hb, ih]
        tauto

theorem nodup_fst_aset {α β : Type} [DecidableEq α] (l : List (α × β)) (k : α) (v : β)
    (h : (l.map Prod.fst).Nodup) : ((aset l k v).map Prod.fst).Nodup := by
  induction l with
  | nil => simp [aset]
  | cons hd t ih =>
      obtain ⟨a, b⟩ := hd
      rw [List.map_cons, List.nodup_cons] at h
      by_cases ha : a = k
      · subst ha
        have : aset ((a, b) :: t) a v = (a, v) :: t := by simp [aset]
        rw [this, List.map_cons, List.nodup_cons]
        exact h
      · have : aset ((a, b) :: t) k v = (a, b) :: aset t k v := by simp [aset, ha]
        rw [this, List.map_cons, List.nodup_cons]
        refine ⟨?_, ih h.2⟩
        intro hmem
        rcases (mem_fst_aset t k a v).mp hmem with h' | h'
        · exact ha h'
        · exact h.1 h'

theorem settle_lookup_self (tbl : List (Nat × Settlement)) (pid : Nat) (o : Settlement)
    (h : alookup tbl pid = none) : alookup (settle tbl pid o) pid = some o := by
  simp [settle, h, alookup]

theorem settle_lookup_ne (tbl : List (Nat × Settlement)) (pid pid' : Nat) (o : Settlement)
    (h : pid' ≠ pid) : alookup (settle tbl pid o) pid' = alookup tbl pid' := by
  cases hl : alookup tbl pid with
  | some s => simp [settle, hl]
  | none => simp [settle, hl, alookup, Ne.symm h]

/-- Characterization of openSheet for a known id (present in the
directory or the registry): the promise id is the fresh counter, the
pending pair is stored under the id, the counter advances, the provider
flag is untouched, and the directory holds an entry for the id
afterwards, whatever the deferred phase did. -/
theorem openSheet_char (st : ManagerState) (id : String) (P : JSValue) (a1 a2 : Bool)
    (hknown : ¬(alookup st.sheets id = none ∧ id ∉ st.registered)) :
    (openSheet st id P a1 a2).2.1 = st.nextPromiseId ∧
    (openSheet st id P a1 a2).1.sheetPromises = aset st.sheetPromises id st.nextPromiseId ∧
    (openSheet st id P a1 a2).1.nextPromiseId = st.nextPromiseId + 1 ∧
    (openSheet st id P a1 a2).1.providerMounted = st.providerMounted ∧
    (alookup (openSheet st id P a1 a2).1.sheets id).isSome = true := by
  cases hsheet : alookup st.sheets id with
  | some s =>
      cases a1 <;> cases a2 <;>
        simp [openSheet, openSheetSync, openSheetDeferred, hsheet, alookup_aset_self]
  | none =>
      have hreg : id ∈ st.registered := by
        by_contra hh
        exact hknown ⟨hsheet, hh⟩
      cases a1 <;> cases a2 <;>
        simp [openSheet, openSheetSync, openSheetDeferred, hsheet, hreg, alookup_aset_self]

/-- A hide call never settles a promise id that is not stored in the
pending-promise map, and never adds it to the map. -/
theorem managerHide_foreign_pid (st : ManagerState) (id : String) (R : JSValue)
    (curAvail : Bool) (pid : Nat)
    (h : ∀ k, alookup st.sheetPromises k ≠ some pid) :
    alookup (managerHide st id R curAvail).1.settled pid = alookup st.settled pid ∧
    (∀ k, alookup (managerHide st id R curAvail).1.sheetPromises k ≠ some pid) := by
  by_cases hm : st.providerMounted
  · cases hsheet : alookup st.sheets id with
    | none => simp only [managerHide, hm, if_true, closeSheet, hsheet]; exact ⟨trivial, h⟩
    | some s =>
        cases hp : alookup st.sheetPromises id with
        | none =>
            simp only [managerHide, hm, if_true, closeSheet, hsheet, hp]
            exact ⟨trivial, h⟩
        | some pid' =>
            have hne : pid ≠ pid' := by
              intro he
              exact h id (by rw [he]; exact hp)
            constructor
            · simp only [managerHide, hm, if_true, closeSheet, hsheet, hp]
              exact settle_lookup_ne _ _ _ _ hne
            · intro k hk
              simp only [managerHide, hm, if_true, closeSheet, hsheet, hp] at hk
              exact h k (alookup_aremove_cases _ _ _ _ hk)
  · have hm' : st.providerMounted = false := by simpa using hm
    rw [managerHide, hm', if_neg (by simp)]
    exact ⟨rfl, h⟩

/-- A promise id absent from the pending-promise map keeps its settlement
status across any sequence of hide calls. -/
theorem applyHides_foreign_pid (ops : List (String × JSValue × Bool))
    (st : ManagerState) (pid : Nat)
    (h : ∀ k, alookup st.sheetPromises k ≠ some pid) :
    alookup (applyHides st ops).settled pid = alookup st.settled pid := by
  induction ops generalizing st with
  | nil => rfl
  | cons op t ih =>
      obtain ⟨id, R, avail⟩ := op
      have hstep := managerHide_foreign_pid st id R avail pid h
      rw [applyHides, ih _ hstep.2, hstep.1]

/-! ### Claim theorems -/

/-- C7: calling open() on a presentation unit that is already visible or
currently closing is a no-op — the state (hence the visible flag) is
unchanged and no animation starts, so the open callback never fires — and
consequently open() immediately followed by a second open() is idempotent:
the second call leaves the state of the first call untouched. -/
theorem open_noop_and_idempotent (u : UnitState) :
    (u.isVisible = true ∨ u.isClosing = true → openCall u = (u, false)) ∧
    openCall (openCall u).1 = ((openCall u).1, false) := by
  constructor
  · intro h
    rcases h with h | h <;> simp [openCall, h]
  · by_cases hv : u.isVisible <;> by_cases hc : u.isClosing <;>
      simp [openCall, hv, hc]

/-- Witness for C7 at the concrete open unit uOpen. -/
theorem open_noop_and_idempotent_witness :
    uOpen.isVisible = true ∧ openCall uOpen = (uOpen, false) :=
  ⟨rfl, (open_noop_and_idempotent uOpen).1 (Or.inl rfl)⟩

/-- C10: the imperative isOpen() query returns isVisible AND not
isClosing; on an open unit it returns true, and from the moment close()
enters the closing state until closeFinish (where the close callback
fires) it returns false, and it stays false afterwards. -/
theorem isOpen_query_during_close (u : UnitState) (screenHeight : ℚ)
    (hv : u.isVisible = true) (hc : u.isClosing = false) :
    UnitState.isOpen u = true ∧
    (closeCall u).1.isClosing = true ∧
    UnitState.isOpen (closeCall u).1 = false ∧
    UnitState.isOpen (closeFinish screenHeight (closeCall u).1) = false ∧
    (∀ v : UnitState, UnitState.isOpen v = (v.isVisible && !v.isClosing)) := by
  refine ⟨by simp [UnitState.isOpen, hv, hc], ?_, ?_, ?_, fun v => rfl⟩ <;>
    simp [closeCall, closeFinish, UnitState.isOpen, hv, hc]

/-- Witness for C10 at the concrete open unit uOpen. -/
theorem isOpen_query_during_close_witness :
    UnitState.isOpen uOpen = true ∧
    UnitState.isOpen (closeCall uOpen).1 = false :=
  ⟨(isOpen_query_during_close uOpen 1000 rfl rfl).1,
    (isOpen_query_during_close uOpen 1000 rfl rfl).2.2.1⟩

/-- C5 counterexample: on a screen of height 1000, releasing a drag at
dy = 200 (exactly 20% of the screen height) with zero velocity does NOT
trigger close() — the code compares with strict inequality — it springs
the sheet back to the open position instead. -/
theorem drag_boundary_release_does_not_close :
    (onPanResponderRelease 1000 uOpenDragged 200 0).2 = false ∧
    (onPanResponderRelease 1000 uOpenDragged 200 0).1.isClosing = false ∧
    (onPanResponderRelease 1000 uOpenDragged 200 0).1.translateY = 0 := by
  have hnc : ¬((200 : ℚ) > 1000 * (2/10) ∨ (0 : ℚ) > 5/10) := by norm_num
  simp [onPanResponderRelease, hnc, uOpenDragged]

/-- C5 (amended): the drag-release distance threshold is exclusive:
a release with dy strictly greater than 20% of the screen height (or
velocity strictly greater than 0.5) triggers close(); a release with dy at
or below 20% of the screen height and velocity at or below 0.5 instead
snaps the sheet back to the fully open position (translateY 0, still
visible, not closing). -/
theorem drag_release_threshold (screenHeight dy vy : ℚ) (u : UnitState)
    (hv : u.isVisible = true) (hc : u.isClosing = false) :
    (dy > screenHeight * (2/10) ∨ vy > 5/10 →
      (onPanResponderRelease screenHeight u dy vy).1.isClosing = true ∧
      (onPanResponderRelease screenHeight u dy vy).2 = true) ∧
    (dy ≤ screenHeight * (2/10) → vy ≤ 5/10 →
      (onPanResponderRelease screenHeight u dy vy).2 = false ∧
      (onPanResponderRelease screenHeight u dy vy).1.translateY = 0 ∧
      (onPanResponderRelease screenHeight u dy vy).1.isClosing = false ∧
      (onPanResponderRelease screenHeight u dy vy).1.isVisible = true) := by
  constructor
  · intro h
    simp [onPanResponderRelease, h, closeCall, hv, hc]
  · intro h1 h2
    have hnc : ¬(dy > screenHeight * (2/10) ∨ vy > 5/10) := by
      rintro (h | h)
      · exact absurd h (not_lt.mpr h1)
      · exact absurd h (not_lt.mpr h2)
    simp [onPanResponderRelease, hnc, hc, hv]

/-- Witness for the amended C5: dy = 201 on a screen of height 1000
closes; the hypotheses hold at uOpen. -/
theorem drag_release_threshold_witness :
    ((201 : ℚ) > 1000 * (2/10) ∨ (0 : ℚ) > 5/10) ∧
    (onPanResponderRelease 1000 uOpen 201 0).1.isClosing = true ∧
    (onPanResponderRelease 1000 uOpen 201 0).2 = true :=
  have h : (201 : ℚ) > 1000 * (2/10) := by norm_num
  ⟨Or.inl h,
    ((drag_release_threshold 1000 201 0 uOpen rfl rfl).1 (Or.inl h)).1,
    ((drag_release_threshold 1000 201 0 uOpen rfl rfl).1 (Or.inl h)).2⟩

/-- C4: hide on an id with no Instance Directory entry is a complete
no-op: the state is returned unchanged (no promise settles, nothing in the
directory or the pending-promise map moves) and close() is not invoked on
any handle. -/
theorem hide_no_entry_noop (st : ManagerState) (id : String) (R : JSValue)
    (curAvail : Bool) (hnone : alookup st.sheets id = none) :
    closeSheet st id R curAvail = (st, false) := by
  simp [closeSheet, hnone]

/-- Witness for C4: hiding the never-shown id s2 in st0. -/
theorem hide_no_entry_noop_witness :
    alookup st0.sheets "s2" = none ∧
    closeSheet st0 "s2" JSValue.undef true = (st0, false) :=
  ⟨by decide, hide_no_entry_noop st0 "s2" JSValue.undef true (by decide)⟩

/-- C9: when the directory entry for an id exists but its ref has a null
current handle, hide still marks the entry isOpen = false (keeping its ref
and props) and still resolves a pending unsettled promise with the result,
deleting the pending entry; only the invocation of the unit's close
operation is skipped. -/
theorem hide_null_ref_still_resolves (st : ManagerState) (id : String)
    (R : JSValue) (s : SheetInstance) (pid : Nat)
    (hs : alookup st.sheets id = some s)
    (hp : alookup st.sheetPromises id = some pid)
    (hunsettled : alookup st.settled pid = none) :
    (closeSheet st id R false).2 = false ∧
    alookup (closeSheet st id R false).1.sheets id
      = some { id := id, ref := s.ref, props := s.props, isOpen := false } ∧
    alookup (closeSheet st id R false).1.settled pid
      = some (Settlement.resolved R) ∧
    alookup (closeSheet st id R false).1.sheetPromises id = none := by
  simp only [closeSheet, hs, hp]
  refine ⟨trivial, ?_, ?_, ?_⟩
  · exact alookup_aset_self _ _ _
  · exact settle_lookup_self _ _ _ hunsettled
  · exact alookup_aremove_self _ _

/-- Witness coordinator state with a pending promise 0 for s1. -/
def st0Pending : ManagerState := { st0 with sheetPromises := [("s1", 0)] }

/-- Witness for C9 at st0Pending, whose s1 ref has a null current. -/
theorem hide_null_ref_still_resolves_witness :
    (closeSheet st0Pending "s1" (JSValue.num 3) false).2 = false ∧
    alookup (closeSheet st0Pending "s1" (JSValue.num 3) false).1.sheets "s1"
      = some { id := "s1", ref := inst1.ref, props := inst1.props, isOpen := false } ∧
    alookup (closeSheet st0Pending "s1" (JSValue.num 3) false).1.settled 0
      = some (Settlement.resolved (JSValue.num 3)) ∧
    alookup (closeSheet st0Pending "s1" (JSValue.num 3) false).1.sheetPromises "s1"
      = none :=
  hide_null_ref_still_resolves st0Pending "s1" (JSValue.num 3) inst1 0
    (by decide) (by decide) rfl

/-- C1: a show for a mounted id (directory entry present, handle available
at the first deferred check, so the open succeeds and the promise stays
pending) followed by hide(id, R) resolves the promise created by that show
with exactly the value R — including R = undefined — and deletes the
pending-promise entry for the id. -/
theorem show_then_hide_resolves (st : ManagerState) (id : String) (P R : JSValue)
    (s : SheetInstance) (a2 curAvail : Bool)
    (hm : st.providerMounted = true)
    (hs : alookup st.sheets id = some s)
    (hfresh : alookup st.settled st.nextPromiseId = none) :
    alookup (managerHide (managerShow st id P true a2).1 id R curAvail).1.settled
        (managerShow st id P true a2).2.1 = some (Settlement.resolved R) ∧
    alookup (managerHide (managerShow st id P true a2).1 id R curAvail).1.sheetPromises id
      = none := by
  have hshow : managerShow st id P true a2
      = ({ st with
            nextPromiseId := st.nextPromiseId + 1
            sheetPromises := aset st.sheetPromises id st.nextPromiseId
            sheets := aset st.sheets id
              { id := id, ref := s.ref, props := jsOr P .emptyObj, isOpen := true } },
          st.nextPromiseId, true) := by
    simp [managerShow, hm, openSheet, openSheetSync, openSheetDeferred, hs]
  rw [hshow]
  have hsA := alookup_aset_self st.sheets id
    ({ id := id, ref := s.ref, props := jsOr P .emptyObj, isOpen := true } : SheetInstance)
  have hpA := alookup_aset_self st.sheetPromises id st.nextPromiseId
  simp only [managerHide, hm, if_true, closeSheet, hsA, hpA]
  exact ⟨settle_lookup_self _ _ _ hfresh, alookup_aremove_self _ _⟩

/-- Witness for C1: show s1 with a payload, hide with R = undefined. -/
theorem show_then_hide_resolves_witness :
    alookup (managerHide (managerShow st0 "s1" (JSValue.data 7) true true).1 "s1"
        JSValue.undef true).1.settled
      (managerShow st0 "s1" (JSValue.data 7) true true).2.1
      = some (Settlement.resolved JSValue.undef) ∧
    alookup (managerHide (managerShow st0 "s1" (JSValue.data 7) true true).1 "s1"
        JSValue.undef true).1.sheetPromises "s1" = none :=
  show_then_hide_resolves st0 "s1" (JSValue.data 7) JSValue.undef inst1 true true
    rfl (by decide) rfl

/-- C2: show for an id that is in neither the directory nor the registry
rejects the fresh promise with the message naming the unregistered id and
leaves the directory, the pending-promise map, the registry and the ref
counter untouched. -/
theorem show_unregistered_rejects (st : ManagerState) (id : String) (P : JSValue)
    (a1 a2 : Bool)
    (hm : st.providerMounted = true)
    (hnone : alookup st.sheets id = none)
    (hreg : id ∉ st.registered)
    (hfresh : alookup st.settled st.nextPromiseId = none) :
    alookup (managerShow st id P a1 a2).1.settled (managerShow st id P a1 a2).2.1
      = some (Settlement.rejected (notRegisteredMsg id)) ∧
    (managerShow st id P a1 a2).1.sheets = st.sheets ∧
    (managerShow st id P a1 a2).1.sheetPromises = st.sheetPromises ∧
    (managerShow st id P a1 a2).1.registered = st.registered ∧
    (managerShow st id P a1 a2).1.nextRefId = st.nextRefId := by
  have hshow : managerShow st id P a1 a2
      = ({ st with
            nextPromiseId := st.nextPromiseId + 1
            settled := settle st.settled st.nextPromiseId
              (.rejected (notRegisteredMsg id)) },
          st.nextPromiseId, false) := by
    simp [managerShow, hm, openSheet, openSheetSync, hnone, hreg]
  rw [hshow]
  exact ⟨settle_lookup_self _ _ _ hfresh, rfl, rfl, rfl, rfl⟩

/-- Witness for C2: the unknown id zz in st0. -/
theorem show_unregistered_rejects_witness :
    alookup (managerShow st0 "zz" JSValue.undef true true).1.settled
        (managerShow st0 "zz" JSValue.undef true true).2.1
      = some (Settlement.rejected (notRegisteredMsg "zz")) ∧
    (managerShow st0 "zz" JSValue.undef true true).1.sheets = st0.sheets ∧
    (managerShow st0 "zz" JSValue.undef true true).1.sheetPromises = st0.sheetPromises :=
  have h := show_unregistered_rejects st0 "zz" JSValue.undef true true
    rfl (by decide) (by decide) rfl
  ⟨h.1, h.2.1, h.2.2.1⟩

/-- C6: show for a registered id whose handle is available at neither the
first deferred check nor the retry rejects the promise with the
ref-unavailable message, never invokes open(), and leaves the directory
entry for the id in place with isOpen = true. -/
theorem show_ref_unavailable_rejects (st : ManagerState) (id : String) (P : JSValue)
    (hm : st.providerMounted = true)
    (hreg : id ∈ st.registered)
    (hfresh : alookup st.settled st.nextPromiseId = none) :
    alookup (managerShow st id P false false).1.settled
        (managerShow st id P false false).2.1
      = some (Settlement.rejected (refUnavailableMsg id)) ∧
    (managerShow st id P false false).2.2 = false ∧
    (alookup (managerShow st id P false false).1.sheets id).map SheetInstance.isOpen
      = some true := by
  cases hsheet : alookup st.sheets id with
  | some s =>
      have hshow : managerShow st id P false false
          = ({ st with
                nextPromiseId := st.nextPromiseId + 1
                sheetPromises := aset st.sheetPromises id st.nextPromiseId
                sheets := aset st.sheets id
                  { id := id, ref := s.ref, props := jsOr P .emptyObj, isOpen := true }
                settled := settle st.settled st.nextPromiseId
                  (.rejected (refUnavailableMsg id)) },
              st.nextPromiseId, false) := by
        simp [managerShow, hm, openSheet, openSheetSync, openSheetDeferred, hsheet]
      rw [hshow]
      refine ⟨settle_lookup_self _ _ _ hfresh, rfl, ?_⟩
      rw [alookup_aset_self]
      rfl
  | none =>
      have hshow : managerShow st id P false false
          = ({ st with
                nextPromiseId := st.nextPromiseId + 1
                sheetPromises := aset st.sheetPromises id st.nextPromiseId
                sheets := aset st.sheets id
                  { id := id, ref := st.nextRefId, props := jsOr P .emptyObj,
                    isOpen := true }
                nextRefId := st.nextRefId + 1
                settled := settle st.settled st.nextPromiseId
                  (.rejected (refUnavailableMsg id)) },
              st.nextPromiseId, false) := by
        simp [managerShow, hm, openSheet, openSheetSync, openSheetDeferred, hsheet, hreg]
      rw [hshow]
      refine ⟨settle_lookup_self _ _ _ hfresh, rfl, ?_⟩
      rw [alookup_aset_self]
      rfl

/-- Witness for C6: s1 in st0 with the handle unavailable at both checks. -/
theorem show_ref_unavailable_rejects_witness :
    alookup (managerShow st0 "s1" (JSValue.data 7) false false).1.settled
        (managerShow st0 "s1" (JSValue.data 7) false false).2.1
      = some (Settlement.rejected (refUnavailableMsg "s1")) ∧
    (managerShow st0 "s1" (JSValue.data 7) false false).2.2 = false ∧
    (alookup (managerShow st0 "s1" (JSValue.data 7) false false).1.sheets "s1").map
        SheetInstance.isOpen = some true :=
  show_ref_unavailable_rejects st0 "s1" (JSValue.data 7) rfl (by decide) rfl

/-- C8: with no provider mounted (the global opener/closer null),
SheetManager.show rejects a fresh promise with the provider-not-initialized
message while touching none of the registry, directory or pending map, and
SheetManager.hide returns the state entirely unchanged. -/
theorem provider_not_mounted_behavior (st : ManagerState) (id : String) (P R : JSValue)
    (a1 a2 curAvail : Bool)
    (hm : st.providerMounted = false)
    (hfresh : alookup st.settled st.nextPromiseId = none) :
    alookup (managerShow st id P a1 a2).1.settled (managerShow st id P a1 a2).2.1
      = some (Settlement.rejected providerNotInitMsg) ∧
    (managerShow st id P a1 a2).1.sheets = st.sheets ∧
    (managerShow st id P a1 a2).1.sheetPromises = st.sheetPromises ∧
    (managerShow st id P a1 a2).1.registered = st.registered ∧
    managerHide st id R curAvail = (st, false) := by
  have hshow : managerShow st id P a1 a2
      = ({ st with
            nextPromiseId := st.nextPromiseId + 1
            settled := settle st.settled st.nextPromiseId
              (.rejected providerNotInitMsg) },
          st.nextPromiseId, false) := by
    simp [managerShow, hm]
  rw [hshow]
  refine ⟨settle_lookup_self _ _ _ hfresh, rfl, rfl, rfl, ?_⟩
  rw [managerHide, hm, if_neg (by simp)]

/-- Witness for C8 at stNoProvider. -/
theorem provider_not_mounted_behavior_witness :
    alookup (managerShow stNoProvider "s1" JSValue.undef true true).1.settled
        (managerShow stNoProvider "s1" JSValue.undef true true).2.1
      = some (Settlement.rejected providerNotInitMsg) ∧
    managerHide stNoProvider "s1" JSValue.undef true = (stNoProvider, false) :=
  have h := provider_not_mounted_behavior stNoProvider "s1" JSValue.undef JSValue.undef
    true true true rfl rfl
  ⟨h.1, h.2.2.2.2⟩

/-- C3: the pending-promise map is keyed by id with no duplicate keys
(at most one resolve/reject pair per identifier); a second show for an id
overwrites the map entry with the new, distinct promise; and the promise
of the earlier show — no longer in the map and never reissued, since
promise ids are fresh — has its settlement status untouched by any later
sequence of hide calls. -/
theorem second_show_orphans_first_promise
    (st st1 st2 : ManagerState) (id : String) (P1 P2 : JSValue)
    (a1 a2 b1 b2 ok1 ok2 : Bool) (pid1 pid2 : Nat)
    (hm : st.providerMounted = true)
    (hknown : ¬(alookup st.sheets id = none ∧ id ∉ st.registered))
    (hwf : ∀ k p, alookup st.sheetPromises k = some p → p < st.nextPromiseId)
    (hnodup : (st.sheetPromises.map Prod.fst).Nodup)
    (hr1 : managerShow st id P1 a1 a2 = (st1, pid1, ok1))
    (hr2 : managerShow st1 id P2 b1 b2 = (st2, pid2, ok2)) :
    pid1 ≠ pid2 ∧
    alookup st2.sheetPromises id = some pid2 ∧
    (st2.sheetPromises.map Prod.fst).Nodup ∧
    ∀ ops, alookup (applyHides st2 ops).settled pid1 = alookup st2.settled pid1 := by
  rw [managerShow, if_pos hm] at hr1
  have hc1 := openSheet_char st id P1 a1 a2 hknown
  rw [hr1] at hc1
  dsimp only at hc1
  obtain ⟨hpid1, hsp1, hn1, hpm1, hsheet1⟩ := hc1
  have hm1 : st1.providerMounted = true := by rw [hpm1]; exact hm
  have hknown1 : ¬(alookup st1.sheets id = none ∧ id ∉ st1.registered) := by
    intro hh
    rw [hh.1] at hsheet1
    simp at hsheet1
  rw [managerShow, if_pos hm1] at hr2
  have hc2 := openSheet_char st1 id P2 b1 b2 hknown1
  rw [hr2] at hc2
  dsimp only at hc2
  obtain ⟨hpid2, hsp2, _, _, _⟩ := hc2
  have hne : pid1 ≠ pid2 := by
    rw [hpid1, hpid2, hn1]
    omega
  refine ⟨hne, ?_, ?_, ?_⟩
  · rw [hsp2, hpid2, alookup_aset_self]
  · rw [hsp2]
    exact nodup_fst_aset _ _ _ (by rw [hsp1]; exact nodup_fst_aset _ _ _ hnodup)
  · intro ops
    apply applyHides_foreign_pid
    intro k hk
    rw [hsp2, hsp1, aset_aset] at hk
    rcases alookup_aset_cases _ _ _ _ _ hk with ⟨_, hpe⟩ | hold
    · rw [hpid1] at hpe
      rw [hn1] at hpe
      omega
    · have := hwf k pid1 hold
      rw [hpid1] at this
      omega

/-- Witness for C3: two shows of s1 in a row, then a hide; the first
promise id 0 keeps its (un)settled status. -/
theorem second_show_orphans_first_promise_witness :
    ((managerShow st0 "s1" (JSValue.data 1) true true).2.1
      ≠ (managerShow (managerShow st0 "s1" (JSValue.data 1) true true).1 "s1"
          (JSValue.data 2) true true).2.1) ∧
    alookup (managerShow (managerShow st0 "s1" (JSValue.data 1) true true).1 "s1"
        (JSValue.data 2) true true).1.sheetPromises "s1"
      = some (managerShow (managerShow st0 "s1" (JSValue.data 1) true true).1 "s1"
          (JSValue.data 2) true true).2.1 ∧
    ((managerShow (managerShow st0 "s1" (JSValue.data 1) true true).1 "s1"
        (JSValue.data 2) true true).1.sheetPromises.map Prod.fst).Nodup ∧
    alookup (applyHides (managerShow (managerShow st0 "s1" (JSValue.data 1) true true).1
          "s1" (JSValue.data 2) true true).1 [("s1", JSValue.undef, true)]).settled
        (managerShow st0 "s1" (JSValue.data 1) true true).2.1
      = alookup (managerShow (managerShow st0 "s1" (JSValue.data 1) true true).1 "s1"
          (JSValue.data 2) true true).1.settled
        (managerShow st0 "s1" (JSValue.data 1) true true).2.1 :=
  have h := second_show_orphans_first_promise st0
    (managerShow st0 "s1" (JSValue.data 1) true true).1
    (managerShow (managerShow st0 "s1" (JSValue.data 1) true true).1 "s1"
      (JSValue.data 2) true true).1
    "s1" (JSValue.data 1) (JSValue.data 2) true true true true
    (managerShow st0 "s1" (JSValue.data 1) true true).2.2
    (managerShow (managerShow st0 "s1" (JSValue.data 1) true true).1 "s1"
      (JSValue.data 2) true true).2.2
    (managerShow st0 "s1" (JSValue.data 1) true true).2.1
    (managerShow (managerShow st0 "s1" (JSValue.data 1) true true).1 "s1"
      (JSValue.data 2) true true).2.1
    rfl (by decide) (fun k p hk => by simp [st0, alookup] at hk) (by simp [st0]) rfl rfl
  ⟨h.1, h.2.1, h.2.2.1, h.2.2.2 [("s1", JSValue.undef, true)]⟩

end RNAS
